import Mathlib

/-!
Shallow embedding of the cable-winder motion coordinator implemented in
`src/cable_winder_dev/cable_winder_dev.ino`.

Positions are integer step counts (the `long` values tracked by the
stepper driver), speeds and user-facing physical quantities are rationals
standing for the C++ `float`s. A C++ float-to-long conversion truncates
toward zero, embedded here as `ratTrunc`. The `AccelStepper` driver of
each axis is embedded through the state it owns: its current position,
the speed last commanded through `setSpeed` (the `guideRate` /
`winderRate` fields), and its output-enable flag; `runSpeed()` is
embedded as one bounded unit of motion in the direction of the commanded
rate (`stepOnce`). Serial output is not modelled.
-/

namespace CableWinderModel

/-- Truncation of a rational toward zero: the C++ conversion from a
float expression to a `long` parameter or member. -/
def ratTrunc (q : ℚ) : Int := if 0 ≤ q then ⌊q⌋ else -⌊-q⌋

/-- `const int StepsPerRev = 200`. -/
def StepsPerRev : ℚ := 200

/-- `const float LeadScrewPitch = 2.0`, mm of guide travel per leadscrew turn. -/
def LeadScrewPitch : ℚ := 2

/-- `const float SpoolWidth = 14.8`, spool width in mm. -/
def SpoolWidth : ℚ := 74 / 5

/-- `const long SpoolStepWidth = SpoolWidth * StepsPerRev / LeadScrewPitch`. -/
def SpoolStepWidth : Int := ratTrunc (SpoolWidth * StepsPerRev / LeadScrewPitch)

/-- `const float GuidePositionHysteresis = 2.0`, default hysteresis in mm. -/
def GuidePositionHysteresis : ℚ := 2

/-- `const long GuideStepHysteresis = GuidePositionHysteresis * StepsPerRev / LeadScrewPitch`. -/
def GuideStepHysteresis : Int :=
  ratTrunc (GuidePositionHysteresis * StepsPerRev / LeadScrewPitch)

/-- `const float InitialWindPitch = 0.4` (declared in the source; the source
never copies it into `guideToWinderStepRatio`, which starts uninitialized). -/
def InitialWindPitch : ℚ := 2 / 5

/-- `const float InitialSpeed = 0.3`, initial winder speed in rev/s. -/
def InitialSpeed : ℚ := 3 / 10

/-- `const int MODE_STOPPED = 0`: neither stepper running. -/
def MODE_STOPPED : Nat := 0

/-- `const int MODE_GUIDE = 1`: guide motor running. -/
def MODE_GUIDE : Nat := 1

/-- `const int MODE_WINDER = 2`: winder motor running. -/
def MODE_WINDER : Nat := 2

/-- `const int MODE_WINDING = 3`: both motors running to wind cable. -/
def MODE_WINDING : Nat := 3

/-- `const int MODE_REVERSING = 5`: move the guide but not the winder while
changing directions. -/
def MODE_REVERSING : Nat := 5

/-- The state owned by the `cableWinder` class together with the state of its
two `AccelStepper` drivers. `guidePos` / `winderPos` are the drivers' tracked
positions, `guideRate` / `winderRate` the speeds last pushed to the drivers
with `setSpeed`, and `guideEnabled` / `winderEnabled` their output-current
flags. The remaining fields are the class members of the same names. -/
structure CableWinder where
  guidePos : Int
  winderPos : Int
  guideRate : ℚ
  winderRate : ℚ
  guideEnabled : Bool
  winderEnabled : Bool
  guideToWinderStepRatio : ℚ
  winderSpeed : ℚ
  guideSpeed : ℚ
  outputsEnabled : Nat
  guideLowerLimit : Int
  guideHysteresis : Int
  guideUpperLimit : Int
  guideTargetPosition : Int
  runMode : Nat
  deriving DecidableEq, Repr

/-- `calcSpeed`: recalculate the guide speed from the winder speed and the
step ratio, keeping the sign factor of the current guide speed. -/
def calcSpeed (s : CableWinder) : CableWinder :=
  { s with guideSpeed :=
      (if 0 < s.guideSpeed then 1 else -1) * |s.winderSpeed| * s.guideToWinderStepRatio }

/-- `calcLimit`: recalculate the upper guide limit. -/
def calcLimit (s : CableWinder) : CableWinder :=
  { s with guideUpperLimit := s.guideLowerLimit + s.guideHysteresis + SpoolStepWidth }

/-- `setWinderSpeed`: store the winder speed in steps/second and recalculate
the guide speed. -/
def setWinderSpeed (speedInput : ℚ) (s : CableWinder) : CableWinder :=
  calcSpeed { s with winderSpeed := speedInput * StepsPerRev }

/-- `setWindPitch`: store the guide-to-winder step ratio and recalculate the
guide speed. -/
def setWindPitch (windPitch : ℚ) (s : CableWinder) : CableWinder :=
  calcSpeed { s with guideToWinderStepRatio := windPitch / LeadScrewPitch }

/-- `getWindPitch`. -/
def getWindPitch (s : CableWinder) : ℚ := s.guideToWinderStepRatio * LeadScrewPitch

/-- `setHysteresis`: store the hysteresis distance in steps (float-to-long
truncation) and recalculate the upper limit. -/
def setHysteresis (comp : ℚ) (s : CableWinder) : CableWinder :=
  calcLimit { s with guideHysteresis := ratTrunc (comp * StepsPerRev / LeadScrewPitch) }

/-- `getHysteresis`. -/
def getHysteresis (s : CableWinder) : ℚ :=
  (s.guideHysteresis : ℚ) * LeadScrewPitch / StepsPerRev

/-- `setGuidePosition`: override the guide driver's tracked position
(float-to-long truncation at `setCurrentPosition`). -/
def setGuidePosition (distance : ℚ) (s : CableWinder) : CableWinder :=
  { s with guidePos := ratTrunc (distance * StepsPerRev / LeadScrewPitch) }

/-- `getGuidePosition`. -/
def getGuidePosition (s : CableWinder) : ℚ :=
  (s.guidePos : ℚ) * LeadScrewPitch / StepsPerRev

/-- `pauseSteppers`: set the run mode to `MODE_STOPPED`, nothing else. -/
def pauseSteppers (s : CableWinder) : CableWinder := { s with runMode := MODE_STOPPED }

/-- `haltSteppers`: `pauseSteppers` and then disable both drivers' outputs. -/
def haltSteppers (s : CableWinder) : CableWinder :=
  { pauseSteppers s with
      winderEnabled := false, guideEnabled := false, outputsEnabled := MODE_STOPPED }

/-- `setGuideDirection`: zero reverses the guide speed in place, a positive
argument forces the positive direction, a negative one the negative. -/
def setGuideDirection (dir : Int) (s : CableWinder) : CableWinder :=
  if dir = 0 then { s with guideSpeed := -s.guideSpeed }
  else if 0 < dir then { s with guideSpeed := |s.guideSpeed| }
  else { s with guideSpeed := -|s.guideSpeed| }

/-- `getMode`. -/
def getMode (s : CableWinder) : Nat := s.runMode

/-- `getWinderSpeed`, in revolutions per second. -/
def getWinderSpeed (s : CableWinder) : ℚ := s.winderSpeed / StepsPerRev

/-- `getGuideSpeed`, in revolutions per second. -/
def getGuideSpeed (s : CableWinder) : ℚ := s.guideSpeed / StepsPerRev

/-- One bounded unit of `AccelStepper::runSpeed()` motion: a step in the
direction of the commanded rate. -/
def stepOnce (pos : Int) (rate : ℚ) : Int :=
  if 0 < rate then pos + 1 else if rate < 0 then pos - 1 else pos

/-- First block of `onLoop`: if the winder is moving for any reason, check
whether its target (the origin) has been reached and stop if so. -/
def winderCheck (s : CableWinder) : CableWinder :=
  if s.runMode &&& MODE_WINDER ≠ 0 ∧
      ((0 ≤ s.winderPos ∧ 0 < s.winderSpeed) ∨ (s.winderPos ≤ 0 ∧ s.winderSpeed < 0)) then
    { s with runMode := MODE_STOPPED }
  else s

/-- Second block of `onLoop`: in `MODE_WINDING`, when the guide has crossed a
limit in its direction of travel, negate the guide speed, push it to the
driver, and enter `MODE_REVERSING`. -/
def reverseCheck (s : CableWinder) : CableWinder :=
  if ((s.guidePos ≤ s.guideLowerLimit ∧ s.guideSpeed < 0) ∨
      (s.guideUpperLimit ≤ s.guidePos ∧ 0 < s.guideSpeed)) ∧ s.runMode = MODE_WINDING then
    { s with guideSpeed := -s.guideSpeed, guideRate := -s.guideSpeed,
             runMode := MODE_REVERSING }
  else s

/-- Third block of `onLoop`: in `MODE_REVERSING`, when the guide has moved
back across the hysteresis boundary in its new direction, re-enter
`MODE_WINDING`. -/
def hysteresisCheck (s : CableWinder) : CableWinder :=
  if s.runMode = MODE_REVERSING ∧
      ((s.guidePos ≤ s.guideUpperLimit - s.guideHysteresis ∧ s.guideSpeed < 0) ∨
       (s.guideLowerLimit + s.guideHysteresis ≤ s.guidePos ∧ 0 < s.guideSpeed)) then
    { s with runMode := MODE_WINDING }
  else s

/-- Fourth block of `onLoop`: in `MODE_GUIDE`, stop when the guide has crossed
its target position in the direction of travel. -/
def guideMoveCheck (s : CableWinder) : CableWinder :=
  if s.runMode = MODE_GUIDE ∧
      ((s.guidePos ≤ s.guideTargetPosition ∧ s.guideSpeed < 0) ∨
       (s.guideTargetPosition ≤ s.guidePos ∧ 0 < s.guideSpeed)) then
    { s with runMode := MODE_STOPPED }
  else s

/-- Final block of `onLoop`: run every stepper whose bit is set in the run
mode at its commanded rate. -/
def runSteppers (s : CableWinder) : CableWinder :=
  let s1 := if s.runMode &&& MODE_GUIDE ≠ 0 then
      { s with guidePos := stepOnce s.guidePos s.guideRate } else s
  if s1.runMode &&& MODE_WINDER ≠ 0 then
    { s1 with winderPos := stepOnce s1.winderPos s1.winderRate } else s1

/-- `onLoop`: the per-tick decision function, blocks in source order. -/
def onLoop (s : CableWinder) : CableWinder :=
  runSteppers (guideMoveCheck (hysteresisCheck (reverseCheck (winderCheck s))))

/-- `windCable(distance)`: for a nonzero distance, re-zero the winder so that
the target is the origin and set the winder speed sign from the distance;
unconditionally enable both outputs, recalculate the guide speed, push both
speeds to the drivers, and enter `MODE_WINDING`. -/
def windCable (distance : ℚ) (s : CableWinder) : CableWinder :=
  let s1 := if distance ≠ 0 then
      { s with winderPos := ratTrunc (-distance * StepsPerRev),
               winderSpeed := if distance < 0 then -|s.winderSpeed| else |s.winderSpeed| }
    else s
  let s2 := calcSpeed { s1 with winderEnabled := true, guideEnabled := true,
                                outputsEnabled := MODE_WINDING }
  { s2 with winderRate := s2.winderSpeed, guideRate := s2.guideSpeed,
            runMode := MODE_WINDING }

/-- `moveWinder(distance)`: move the winder without moving the guide. -/
def moveWinder (distance : ℚ) (s : CableWinder) : CableWinder :=
  let s1 := { s with winderEnabled := true, outputsEnabled := MODE_WINDER,
                     winderPos := ratTrunc (-distance * StepsPerRev),
                     winderSpeed :=
                       if distance < 0 then -|s.winderSpeed| else |s.winderSpeed| }
  { s1 with winderRate := s1.winderSpeed, runMode := MODE_WINDER }

/-- `moveGuide(distance)`: move the guide without moving the winder. -/
def moveGuide (distance : ℚ) (s : CableWinder) : CableWinder :=
  let s1 := { s with guideEnabled := true, outputsEnabled := MODE_GUIDE,
                     guideTargetPosition :=
                       ratTrunc ((s.guidePos : ℚ) + distance * StepsPerRev / LeadScrewPitch),
                     guideSpeed :=
                       if distance < 0 then -|s.guideSpeed| else |s.guideSpeed| }
  { s1 with guideRate := s1.guideSpeed, runMode := MODE_GUIDE }

/-- The state after the `cableWinder` constructor (which ends in `calcSpeed`).
`guideToWinderStepRatio`, `guideSpeed` and `guideTargetPosition` have no
initializer in the source, so their pre-constructor contents are parameters.
`AccelStepper` starts each axis at position 0 with speed 0 and enables its
outputs at construction. -/
def init (r0 g0 : ℚ) (t0 : Int) : CableWinder :=
  calcSpeed {
    guidePos := 0, winderPos := 0, guideRate := 0, winderRate := 0,
    guideEnabled := true, winderEnabled := true,
    guideToWinderStepRatio := r0,
    winderSpeed := InitialSpeed * StepsPerRev,
    guideSpeed := g0,
    outputsEnabled := MODE_STOPPED,
    guideLowerLimit := 0,
    guideHysteresis := GuideStepHysteresis,
    guideUpperLimit := SpoolStepWidth + GuideStepHysteresis,
    guideTargetPosition := t0,
    runMode := MODE_STOPPED }

/-- The states reachable from start-up through the public interface: every
command handler reachable from `parseSerial` plus the tick function and the
public recalculation helpers. -/
inductive Reachable : CableWinder → Prop
  | base (r0 g0 : ℚ) (t0 : Int) : Reachable (init r0 g0 t0)
  | tick {s : CableWinder} : Reachable s → Reachable (onLoop s)
  | wind {s : CableWinder} (d : ℚ) : Reachable s → Reachable (windCable d s)
  | mvWinder {s : CableWinder} (d : ℚ) : Reachable s → Reachable (moveWinder d s)
  | mvGuide {s : CableWinder} (d : ℚ) : Reachable s → Reachable (moveGuide d s)
  | setWSpeed {s : CableWinder} (v : ℚ) : Reachable s → Reachable (setWinderSpeed v s)
  | setPitch {s : CableWinder} (p : ℚ) : Reachable s → Reachable (setWindPitch p s)
  | setHyst {s : CableWinder} (c : ℚ) : Reachable s → Reachable (setHysteresis c s)
  | setGPos {s : CableWinder} (m : ℚ) : Reachable s → Reachable (setGuidePosition m s)
  | setGDir {s : CableWinder} (dir : Int) : Reachable s → Reachable (setGuideDirection dir s)
  | pause {s : CableWinder} : Reachable s → Reachable (pauseSteppers s)
  | halt {s : CableWinder} : Reachable s → Reachable (haltSteppers s)
  | cSpeed {s : CableWinder} : Reachable s → Reachable (calcSpeed s)
  | cLimit {s : CableWinder} : Reachable s → Reachable (calcLimit s)

/-- The limit configuration of a state: lower limit, hysteresis, upper limit. -/
def limits (s : CableWinder) : Int × Int × Int :=
  (s.guideLowerLimit, s.guideHysteresis, s.guideUpperLimit)

/-- C6 witness state: `MODE_WINDER`, winder at the origin, advancing. -/
def w6 : CableWinder :=
  { guidePos := 0, winderPos := 0, guideRate := 0, winderRate := 60,
    guideEnabled := true, winderEnabled := true,
    guideToWinderStepRatio := 1 / 5, winderSpeed := 60, guideSpeed := 12,
    outputsEnabled := 2, guideLowerLimit := 0, guideHysteresis := 200,
    guideUpperLimit := 1680, guideTargetPosition := 0, runMode := MODE_WINDER }

/-- C2 witness state: `MODE_REVERSING`, moving negative, hysteresis done. -/
def w2 : CableWinder :=
  { guidePos := 1480, winderPos := -1000, guideRate := -12, winderRate := 60,
    guideEnabled := true, winderEnabled := true,
    guideToWinderStepRatio := 1 / 5, winderSpeed := 60, guideSpeed := -12,
    outputsEnabled := 3, guideLowerLimit := 0, guideHysteresis := 200,
    guideUpperLimit := 1680, guideTargetPosition := 0, runMode := MODE_REVERSING }

/-- C1 counterexample state: `MODE_WINDING`, guide exactly at the upper limit
moving positive, while the winder has also just reached its target. -/
def cex1 : CableWinder :=
  { guidePos := 1680, winderPos := 0, guideRate := 12, winderRate := 60,
    guideEnabled := true, winderEnabled := true,
    guideToWinderStepRatio := 1 / 5, winderSpeed := 60, guideSpeed := 12,
    outputsEnabled := 3, guideLowerLimit := 0, guideHysteresis := 200,
    guideUpperLimit := 1680, guideTargetPosition := 0, runMode := MODE_WINDING }

/-- C1 witness state: `MODE_WINDING`, guide at the upper limit moving
positive, winder still short of its target, positive hysteresis. -/
def w1 : CableWinder :=
  { guidePos := 1680, winderPos := -1000, guideRate := 12, winderRate := 60,
    guideEnabled := true, winderEnabled := true,
    guideToWinderStepRatio := 1 / 5, winderSpeed := 60, guideSpeed := 12,
    outputsEnabled := 3, guideLowerLimit := 0, guideHysteresis := 200,
    guideUpperLimit := 1680, guideTargetPosition := 0, runMode := MODE_WINDING }

/-- C3 counterexample state, reached from start-up by `setHysteresis(0.0)`,
`setGuidePosition(14.8)` and `windCable(5.0)`: winding, guide at the upper
limit moving positive, stored hysteresis zero. -/
def cex3 : CableWinder :=
  windCable 5 (setGuidePosition (74 / 5) (setHysteresis 0 (init (1 / 5) 1 0)))

/-- C7 counterexample state: `MODE_REVERSING` with the hysteresis distance
already covered, winder commanded rate still positive. -/
def cex7 : CableWinder :=
  { guidePos := 1480, winderPos := -1000, guideRate := -12, winderRate := 60,
    guideEnabled := true, winderEnabled := true,
    guideToWinderStepRatio := 1 / 5, winderSpeed := 60, guideSpeed := -12,
    outputsEnabled := 3, guideLowerLimit := 0, guideHysteresis := 200,
    guideUpperLimit := 1680, guideTargetPosition := 0, runMode := MODE_REVERSING }

/-- C7 witness state: `MODE_REVERSING`, hysteresis distance not yet covered. -/
def w7 : CableWinder :=
  { guidePos := 1600, winderPos := -1000, guideRate := -12, winderRate := 60,
    guideEnabled := true, winderEnabled := true,
    guideToWinderStepRatio := 1 / 5, winderSpeed := 60, guideSpeed := -12,
    outputsEnabled := 3, guideLowerLimit := 0, guideHysteresis := 200,
    guideUpperLimit := 1680, guideTargetPosition := 0, runMode := MODE_REVERSING }

lemma winderCheck_eq_or (s : CableWinder) :
    winderCheck s = s ∨ winderCheck s = { s with runMode := MODE_STOPPED } := by
  unfold winderCheck; split
  · exact Or.inr rfl
  · exact Or.inl rfl

lemma reverseCheck_eq_or (s : CableWinder) :
    reverseCheck s = s ∨
      (((s.guidePos ≤ s.guideLowerLimit ∧ s.guideSpeed < 0) ∨
        (s.guideUpperLimit ≤ s.guidePos ∧ 0 < s.guideSpeed)) ∧
       reverseCheck s = { s with guideSpeed := -s.guideSpeed, guideRate := -s.guideSpeed,
                                 runMode := MODE_REVERSING }) := by
  unfold reverseCheck; split
  · next h => exact Or.inr ⟨h.1, rfl⟩
  · exact Or.inl rfl

lemma winderCheck_of_bit (s : CableWinder) (h : s.runMode &&& MODE_WINDER = 0) :
    winderCheck s = s := by
  unfold winderCheck
  rw [if_neg]
  rintro ⟨hm, -⟩
  exact hm h

lemma reverseCheck_of_ne (s : CableWinder) (h : s.runMode ≠ MODE_WINDING) :
    reverseCheck s = s := by
  unfold reverseCheck
  rw [if_neg]
  rintro ⟨-, hm⟩
  exact h hm

lemma hysteresisCheck_of_ne (s : CableWinder) (h : s.runMode ≠ MODE_REVERSING) :
    hysteresisCheck s = s := by
  unfold hysteresisCheck
  rw [if_neg]
  rintro ⟨hm, -⟩
  exact h hm

lemma guideMoveCheck_of_ne (s : CableWinder) (h : s.runMode ≠ MODE_GUIDE) :
    guideMoveCheck s = s := by
  unfold guideMoveCheck
  rw [if_neg]
  rintro ⟨hm, -⟩
  exact h hm

lemma runSteppers_runMode (s : CableWinder) : (runSteppers s).runMode = s.runMode := by
  simp only [runSteppers]; split <;> split <;> rfl

lemma runSteppers_guideSpeed (s : CableWinder) :
    (runSteppers s).guideSpeed = s.guideSpeed := by
  simp only [runSteppers]; split <;> split <;> rfl

lemma runSteppers_winderSpeed (s : CableWinder) :
    (runSteppers s).winderSpeed = s.winderSpeed := by
  simp only [runSteppers]; split <;> split <;> rfl

lemma runSteppers_winderRate (s : CableWinder) :
    (runSteppers s).winderRate = s.winderRate := by
  simp only [runSteppers]; split <;> split <;> rfl

lemma winderCheck_limits (s : CableWinder) : limits (winderCheck s) = limits s := by
  unfold winderCheck; split <;> rfl

lemma reverseCheck_limits (s : CableWinder) : limits (reverseCheck s) = limits s := by
  unfold reverseCheck; split <;> rfl

lemma hysteresisCheck_limits (s : CableWinder) :
    limits (hysteresisCheck s) = limits s := by
  unfold hysteresisCheck; split <;> rfl

lemma guideMoveCheck_limits (s : CableWinder) :
    limits (guideMoveCheck s) = limits s := by
  unfold guideMoveCheck; split <;> rfl

lemma runSteppers_limits (s : CableWinder) : limits (runSteppers s) = limits s := by
  simp only [runSteppers]; split <;> split <;> rfl

lemma onLoop_limits (s : CableWinder) : limits (onLoop s) = limits s := by
  unfold onLoop
  rw [runSteppers_limits, guideMoveCheck_limits, hysteresisCheck_limits,
    reverseCheck_limits, winderCheck_limits]

lemma windCable_limits (s : CableWinder) (d : ℚ) : limits (windCable d s) = limits s := by
  simp only [windCable, calcSpeed]; split <;> rfl

lemma setGuideDirection_limits (s : CableWinder) (dir : Int) :
    limits (setGuideDirection dir s) = limits s := by
  unfold setGuideDirection
  split
  · rfl
  · split <;> rfl

lemma limits_step {s t : CableWinder} (h : limits t = limits s)
    (ih : s.guideUpperLimit - s.guideLowerLimit = s.guideHysteresis + SpoolStepWidth) :
    t.guideUpperLimit - t.guideLowerLimit = t.guideHysteresis + SpoolStepWidth := by
  unfold limits at h
  rw [Prod.mk.injEq, Prod.mk.injEq] at h
  rw [h.2.2, h.1, h.2.1]
  exact ih

lemma onLoop_stopped (s : CableWinder) (h : s.runMode = MODE_STOPPED) : onLoop s = s := by
  unfold onLoop
  rw [winderCheck_of_bit s (by rw [h]; decide), reverseCheck_of_ne s (by rw [h]; decide),
    hysteresisCheck_of_ne s (by rw [h]; decide), guideMoveCheck_of_ne s (by rw [h]; decide)]
  have hg : ¬ (s.runMode &&& MODE_GUIDE ≠ 0) := by rw [h]; decide
  have hw : ¬ (s.runMode &&& MODE_WINDER ≠ 0) := by rw [h]; decide
  simp only [runSteppers, if_neg hg, if_neg hw]

/-- C5: at every reachable state the guide limits satisfy
`guideUpperLimit - guideLowerLimit = guideHysteresis + SpoolStepWidth`
(hysteresis plus spool width, both in steps), and the same equation holds
immediately after any `setHysteresis` call on any state, for any finite
hysteresis argument. -/
theorem claim5_thm :
    (∀ s : CableWinder, Reachable s →
      s.guideUpperLimit - s.guideLowerLimit = s.guideHysteresis + SpoolStepWidth) ∧
    (∀ (s : CableWinder) (c : ℚ),
      (setHysteresis c s).guideUpperLimit - (setHysteresis c s).guideLowerLimit =
        (setHysteresis c s).guideHysteresis + SpoolStepWidth) := by
  have hset : ∀ (s : CableWinder) (c : ℚ),
      (setHysteresis c s).guideUpperLimit - (setHysteresis c s).guideLowerLimit =
        (setHysteresis c s).guideHysteresis + SpoolStepWidth := by
    intro s c
    simp only [setHysteresis, calcLimit]
    omega
  refine ⟨?_, hset⟩
  intro s h
  induction h with
  | base r0 g0 t0 => simp only [init, calcSpeed]; omega
  | tick h ih => exact limits_step (onLoop_limits _) ih
  | wind d h ih => exact limits_step (windCable_limits _ d) ih
  | mvWinder d h ih => exact limits_step rfl ih
  | mvGuide d h ih => exact limits_step rfl ih
  | setWSpeed v h ih => exact limits_step rfl ih
  | setPitch p h ih => exact limits_step rfl ih
  | setHyst c h ih => exact hset _ c
  | setGPos m h ih => exact limits_step rfl ih
  | setGDir dir h ih => exact limits_step (setGuideDirection_limits _ dir) ih
  | pause h ih => exact limits_step rfl ih
  | halt h ih => exact limits_step rfl ih
  | cSpeed h ih => exact limits_step rfl ih
  | cLimit h ih => simp only [calcLimit]; omega

/-- C5 witness: the invariant instantiated at the start-up state. -/
theorem claim5_witness :
    (init 0 0 0).guideUpperLimit - (init 0 0 0).guideLowerLimit =
      (init 0 0 0).guideHysteresis + SpoolStepWidth :=
  claim5_thm.1 (init 0 0 0) (Reachable.base 0 0 0)

/-- C10: `pauseSteppers` sets the run mode to `MODE_STOPPED` and changes
nothing else (output-enable flags, speeds, rates, positions, target and
limits all keep their values), a subsequent tick is a no-op, and
`haltSteppers` additionally disables both drivers' outputs. -/
theorem claim10_thm (s : CableWinder) :
    (pauseSteppers s).runMode = MODE_STOPPED ∧
    (pauseSteppers s).guideEnabled = s.guideEnabled ∧
    (pauseSteppers s).winderEnabled = s.winderEnabled ∧
    (pauseSteppers s).outputsEnabled = s.outputsEnabled ∧
    (pauseSteppers s).guideSpeed = s.guideSpeed ∧
    (pauseSteppers s).winderSpeed = s.winderSpeed ∧
    (pauseSteppers s).guideRate = s.guideRate ∧
    (pauseSteppers s).winderRate = s.winderRate ∧
    (pauseSteppers s).guidePos = s.guidePos ∧
    (pauseSteppers s).winderPos = s.winderPos ∧
    (pauseSteppers s).guideTargetPosition = s.guideTargetPosition ∧
    (pauseSteppers s).guideLowerLimit = s.guideLowerLimit ∧
    (pauseSteppers s).guideUpperLimit = s.guideUpperLimit ∧
    (pauseSteppers s).guideHysteresis = s.guideHysteresis ∧
    (pauseSteppers s).guideToWinderStepRatio = s.guideToWinderStepRatio ∧
    onLoop (pauseSteppers s) = pauseSteppers s ∧
    (haltSteppers s).guideEnabled = false ∧
    (haltSteppers s).winderEnabled = false ∧
    (haltSteppers s).runMode = MODE_STOPPED := by
  refine ⟨rfl, rfl, rfl, rfl, rfl, rfl, rfl, rfl, rfl, rfl, rfl, rfl, rfl, rfl, rfl,
    ?_, rfl, rfl, rfl⟩
  exact onLoop_stopped _ rfl

/-- C6: in any run mode with the winder bit set, when the winder position has
crossed the origin in the direction of travel, one tick sets the run mode to
`MODE_STOPPED`; `MODE_WINDER` and `MODE_WINDING` both carry the winder bit,
`MODE_REVERSING` does not. -/
theorem claim6_thm (s : CableWinder)
    (hbit : s.runMode &&& MODE_WINDER ≠ 0)
    (hdone : (0 ≤ s.winderPos ∧ 0 < s.winderSpeed) ∨
             (s.winderPos ≤ 0 ∧ s.winderSpeed < 0)) :
    (onLoop s).runMode = MODE_STOPPED ∧
    MODE_WINDER &&& MODE_WINDER ≠ 0 ∧ MODE_WINDING &&& MODE_WINDER ≠ 0 ∧
    MODE_REVERSING &&& MODE_WINDER = 0 := by
  refine ⟨?_, by decide, by decide, by decide⟩
  have h1 : winderCheck s = { s with runMode := MODE_STOPPED } := by
    unfold winderCheck; rw [if_pos ⟨hbit, hdone⟩]
  unfold onLoop
  rw [h1, reverseCheck_of_ne _ (by show MODE_STOPPED ≠ MODE_WINDING; decide),
    hysteresisCheck_of_ne _ (by show MODE_STOPPED ≠ MODE_REVERSING; decide),
    guideMoveCheck_of_ne _ (by show MODE_STOPPED ≠ MODE_GUIDE; decide), runSteppers_runMode]


/-- C6 witness: the winder-completion transition at the concrete state `w6`. -/
theorem claim6_witness :
    w6.runMode &&& MODE_WINDER ≠ 0 ∧
    ((0 ≤ w6.winderPos ∧ 0 < w6.winderSpeed) ∨ (w6.winderPos ≤ 0 ∧ w6.winderSpeed < 0)) ∧
    (onLoop w6).runMode = MODE_STOPPED :=
  ⟨by decide, Or.inl ⟨le_refl 0, by norm_num [w6]⟩,
    (claim6_thm w6 (by decide) (Or.inl ⟨le_refl 0, by norm_num [w6]⟩)).1⟩

/-- C2: from `MODE_REVERSING` while the guide moves negative (entered from the
upper limit), one tick sets the run mode to `MODE_WINDING` exactly when the
guide position is at or below `guideUpperLimit - guideHysteresis`; while the
guide moves positive (entered from the lower limit), exactly when the position
is at or above `guideLowerLimit + guideHysteresis`. -/
theorem claim2_thm (s : CableWinder) (hmode : s.runMode = MODE_REVERSING) :
    (s.guideSpeed < 0 →
      ((onLoop s).runMode = MODE_WINDING ↔
        s.guidePos ≤ s.guideUpperLimit - s.guideHysteresis)) ∧
    (0 < s.guideSpeed →
      ((onLoop s).runMode = MODE_WINDING ↔
        s.guideLowerLimit + s.guideHysteresis ≤ s.guidePos)) := by
  have h1 : winderCheck s = s := winderCheck_of_bit s (by rw [hmode]; decide)
  have h2 : reverseCheck s = s := reverseCheck_of_ne s (by rw [hmode]; decide)
  by_cases hc : (s.guidePos ≤ s.guideUpperLimit - s.guideHysteresis ∧ s.guideSpeed < 0) ∨
      (s.guideLowerLimit + s.guideHysteresis ≤ s.guidePos ∧ 0 < s.guideSpeed)
  · have h3 : hysteresisCheck s = { s with runMode := MODE_WINDING } := by
      unfold hysteresisCheck; rw [if_pos ⟨hmode, hc⟩]
    have hfin : (onLoop s).runMode = MODE_WINDING := by
      unfold onLoop
      rw [h1, h2, h3, guideMoveCheck_of_ne _ (by show MODE_WINDING ≠ MODE_GUIDE; decide),
        runSteppers_runMode]
    constructor
    · intro hneg
      refine iff_of_true hfin ?_
      rcases hc with ⟨h, -⟩ | ⟨-, hpos⟩
      · exact h
      · linarith
    · intro hpos
      refine iff_of_true hfin ?_
      rcases hc with ⟨-, hneg⟩ | ⟨h, -⟩
      · linarith
      · exact h
  · have h3 : hysteresisCheck s = s := by
      unfold hysteresisCheck
      rw [if_neg]
      rintro ⟨-, h⟩
      exact hc h
    have hfin : (onLoop s).runMode = MODE_REVERSING := by
      unfold onLoop
      rw [h1, h2, h3, guideMoveCheck_of_ne _ (by rw [hmode]; decide), runSteppers_runMode,
        hmode]
    have hne : (onLoop s).runMode ≠ MODE_WINDING := by rw [hfin]; decide
    constructor
    · intro hneg
      exact iff_of_false hne fun h => hc (Or.inl ⟨h, hneg⟩)
    · intro hpos
      exact iff_of_false hne fun h => hc (Or.inr ⟨h, hpos⟩)

/-- C2 witness: the hysteresis-completion equivalence at the concrete state `w2`. -/
theorem claim2_witness :
    w2.runMode = MODE_REVERSING ∧
    ((w2.guideSpeed < 0 →
      ((onLoop w2).runMode = MODE_WINDING ↔
        w2.guidePos ≤ w2.guideUpperLimit - w2.guideHysteresis)) ∧
    (0 < w2.guideSpeed →
      ((onLoop w2).runMode = MODE_WINDING ↔
        w2.guideLowerLimit + w2.guideHysteresis ≤ w2.guidePos))) :=
  ⟨rfl, claim2_thm w2 rfl⟩

/-- C1 (amended): in `MODE_WINDING`, with the guide at or past a limit in its
direction of travel, one tick negates the guide speed and enters
`MODE_REVERSING` — provided the winder-completion condition does not hold on
the same tick (it is checked first and would stop everything) and the stored
hysteresis is positive (otherwise the same tick already completes hysteresis
compensation and ends in `MODE_WINDING`). -/
theorem claim1_thm (s : CableWinder)
    (hmode : s.runMode = MODE_WINDING)
    (hlim : (s.guideUpperLimit ≤ s.guidePos ∧ 0 < s.guideSpeed) ∨
            (s.guidePos ≤ s.guideLowerLimit ∧ s.guideSpeed < 0))
    (hw : ¬ ((0 ≤ s.winderPos ∧ 0 < s.winderSpeed) ∨
             (s.winderPos ≤ 0 ∧ s.winderSpeed < 0)))
    (hh : 0 < s.guideHysteresis) :
    (onLoop s).runMode = MODE_REVERSING ∧ (onLoop s).guideSpeed = -s.guideSpeed := by
  have h1 : winderCheck s = s := by
    unfold winderCheck
    rw [if_neg]
    rintro ⟨-, hc⟩
    exact hw hc
  have h2 : reverseCheck s =
      { s with guideSpeed := -s.guideSpeed, guideRate := -s.guideSpeed,
               runMode := MODE_REVERSING } := by
    unfold reverseCheck
    rw [if_pos ⟨hlim.symm, hmode⟩]
  have h3 : hysteresisCheck
      { s with guideSpeed := -s.guideSpeed, guideRate := -s.guideSpeed,
               runMode := MODE_REVERSING } =
      { s with guideSpeed := -s.guideSpeed, guideRate := -s.guideSpeed,
               runMode := MODE_REVERSING } := by
    unfold hysteresisCheck
    rw [if_neg]
    rintro ⟨-, hcomp⟩
    simp only at hcomp
    rcases hlim with ⟨hp, hgs⟩ | ⟨hp, hgs⟩
    · rcases hcomp with ⟨hle, -⟩ | ⟨-, hpos⟩
      · omega
      · linarith
    · rcases hcomp with ⟨-, hneg⟩ | ⟨hge, -⟩
      · linarith
      · omega
  have h4 := guideMoveCheck_of_ne
    { s with guideSpeed := -s.guideSpeed, guideRate := -s.guideSpeed,
             runMode := MODE_REVERSING }
    (by show MODE_REVERSING ≠ MODE_GUIDE; decide)
  constructor
  · unfold onLoop
    rw [h1, h2, h3, h4, runSteppers_runMode]
  · unfold onLoop
    rw [h1, h2, h3, h4, runSteppers_guideSpeed]

/-- C1 counterexample: at `cex1` the premises of the claim hold (mode
`MODE_WINDING`, guide at the upper limit moving positive), yet the tick
neither enters `MODE_REVERSING` nor negates the guide speed: the
winder-completion check runs first and stops everything. -/
theorem claim1_cex :
    cex1.runMode = MODE_WINDING ∧
    cex1.guideUpperLimit ≤ cex1.guidePos ∧ 0 < cex1.guideSpeed ∧
    (onLoop cex1).runMode = MODE_STOPPED ∧
    (onLoop cex1).runMode ≠ MODE_REVERSING ∧
    (onLoop cex1).guideSpeed = cex1.guideSpeed := by
  refine ⟨rfl, le_refl _, by norm_num [cex1], ?_, ?_, ?_⟩ <;>
    norm_num +decide [onLoop, winderCheck, reverseCheck, hysteresisCheck, guideMoveCheck,
      runSteppers, cex1, stepOnce, MODE_WINDING, MODE_WINDER, MODE_GUIDE, MODE_STOPPED,
      MODE_REVERSING]

/-- C1 witness: the amended reversal property at the concrete state `w1`. -/
theorem claim1_witness :
    w1.runMode = MODE_WINDING ∧
    w1.guideUpperLimit ≤ w1.guidePos ∧ 0 < w1.guideSpeed ∧
    0 < w1.guideHysteresis ∧
    ((onLoop w1).runMode = MODE_REVERSING ∧ (onLoop w1).guideSpeed = -w1.guideSpeed) :=
  ⟨rfl, le_refl _, by norm_num [w1], by decide,
    claim1_thm w1 rfl (Or.inl ⟨le_refl _, by norm_num [w1]⟩) (by norm_num [w1])
      (by decide)⟩

/-- C3 (amended): for a reachable state with positive stored hysteresis, no
single tick both performs a guide reversal and completes hysteresis
compensation: a tick that starts in `MODE_WINDING` and whose reversal block
fires (leaving `MODE_REVERSING` after the first two blocks) cannot end the
tick back in `MODE_WINDING`. With zero or negative hysteresis the code does
take this same-tick double transition (see the counterexample), because the
hysteresis-completion block is checked after the reversal block of the same
tick. -/
theorem claim3_thm (s : CableWinder) (_hr : Reachable s)
    (hh : 0 < s.guideHysteresis) :
    ¬ (s.runMode = MODE_WINDING ∧
       (reverseCheck (winderCheck s)).runMode = MODE_REVERSING ∧
       (onLoop s).runMode = MODE_WINDING) := by
  rintro ⟨hm, hrev, hfin⟩
  unfold onLoop at hfin
  rcases winderCheck_eq_or s with h1 | h1
  · rw [h1] at hrev hfin
    rcases reverseCheck_eq_or s with h2 | ⟨hcond, h2⟩
    · rw [h2, hm] at hrev
      exact absurd hrev (by decide)
    · rw [h2] at hfin
      have h3 : hysteresisCheck
          { s with guideSpeed := -s.guideSpeed, guideRate := -s.guideSpeed,
                   runMode := MODE_REVERSING } =
          { s with guideSpeed := -s.guideSpeed, guideRate := -s.guideSpeed,
                   runMode := MODE_REVERSING } := by
        unfold hysteresisCheck
        rw [if_neg]
        rintro ⟨-, hcomp⟩
        simp only at hcomp
        rcases hcond with ⟨hp, hgs⟩ | ⟨hp, hgs⟩
        · rcases hcomp with ⟨-, hneg⟩ | ⟨hge, -⟩
          · linarith
          · omega
        · rcases hcomp with ⟨hle, -⟩ | ⟨-, hpos⟩
          · omega
          · linarith
      have h4 := guideMoveCheck_of_ne
        { s with guideSpeed := -s.guideSpeed, guideRate := -s.guideSpeed,
                 runMode := MODE_REVERSING }
        (by show MODE_REVERSING ≠ MODE_GUIDE; decide)
      rw [h3, h4, runSteppers_runMode] at hfin
      simp only at hfin
      exact absurd hfin (by decide)
  · rw [h1, reverseCheck_of_ne _ (by show MODE_STOPPED ≠ MODE_WINDING; decide)] at hrev
    simp only at hrev
    exact absurd hrev (by decide)

/-- C3 counterexample: `cex3` is reachable and accepted (hysteresis zero is
an accepted configuration value), starts the tick in `MODE_WINDING`, its
reversal block fires (the state is in `MODE_REVERSING` after the first two
blocks), and the same tick ends back in `MODE_WINDING`: reversal and
hysteresis-completion happen in one tick. -/
theorem claim3_cex :
    Reachable cex3 ∧ cex3.guideHysteresis = 0 ∧ cex3.runMode = MODE_WINDING ∧
    (reverseCheck (winderCheck cex3)).runMode = MODE_REVERSING ∧
    (onLoop cex3).runMode = MODE_WINDING := by
  refine ⟨Reachable.wind 5 (Reachable.setGPos (74 / 5)
    (Reachable.setHyst 0 (Reachable.base (1 / 5) 1 0))), ?_, ?_, ?_, ?_⟩ <;>
    norm_num +decide [cex3, init, windCable, setGuidePosition, setHysteresis, calcSpeed,
      calcLimit, ratTrunc, StepsPerRev, LeadScrewPitch, SpoolWidth, SpoolStepWidth,
      GuidePositionHysteresis, GuideStepHysteresis, InitialSpeed, onLoop, winderCheck,
      reverseCheck, hysteresisCheck, guideMoveCheck, runSteppers, stepOnce, MODE_STOPPED,
      MODE_GUIDE, MODE_WINDER, MODE_WINDING, MODE_REVERSING]

/-- C3 witness: the amended exclusion property at the start-up state, whose
stored hysteresis (200 steps) is positive. -/
theorem claim3_witness :
    0 < (init 0 0 0).guideHysteresis ∧
    ¬ ((init 0 0 0).runMode = MODE_WINDING ∧
       (reverseCheck (winderCheck (init 0 0 0))).runMode = MODE_REVERSING ∧
       (onLoop (init 0 0 0)).runMode = MODE_WINDING) :=
  ⟨by norm_num [init, calcSpeed, GuideStepHysteresis, ratTrunc, GuidePositionHysteresis,
      StepsPerRev, LeadScrewPitch],
    claim3_thm (init 0 0 0) (Reachable.base 0 0 0)
      (by norm_num [init, calcSpeed, GuideStepHysteresis, ratTrunc, GuidePositionHysteresis,
        StepsPerRev, LeadScrewPitch])⟩

/-- C7 (amended): a tick from `MODE_REVERSING` on which the
hysteresis-compensation condition is not yet met advances only the guide (one
bounded unit at its commanded rate) and leaves the winder's position, speed
and commanded rate unchanged; `MODE_REVERSING` carries the guide bit and not
the winder bit. On the tick whose hysteresis check completes, however, the
run mode is already `MODE_WINDING` when the drive block runs, so the winder
is advanced on that same tick (see the counterexample). -/
theorem claim7_thm (s : CableWinder)
    (hmode : s.runMode = MODE_REVERSING)
    (hnc : ¬ ((s.guidePos ≤ s.guideUpperLimit - s.guideHysteresis ∧ s.guideSpeed < 0) ∨
              (s.guideLowerLimit + s.guideHysteresis ≤ s.guidePos ∧ 0 < s.guideSpeed))) :
    (onLoop s).winderPos = s.winderPos ∧
    (onLoop s).winderSpeed = s.winderSpeed ∧
    (onLoop s).winderRate = s.winderRate ∧
    (onLoop s).guidePos = stepOnce s.guidePos s.guideRate ∧
    MODE_REVERSING &&& MODE_GUIDE ≠ 0 ∧ MODE_REVERSING &&& MODE_WINDER = 0 := by
  have h1 : winderCheck s = s := winderCheck_of_bit s (by rw [hmode]; decide)
  have h2 : reverseCheck s = s := reverseCheck_of_ne s (by rw [hmode]; decide)
  have h3 : hysteresisCheck s = s := by
    unfold hysteresisCheck
    rw [if_neg]
    rintro ⟨-, h⟩
    exact hnc h
  have h4 : guideMoveCheck s = s := guideMoveCheck_of_ne s (by rw [hmode]; decide)
  have hg : s.runMode &&& MODE_GUIDE ≠ 0 := by rw [hmode]; decide
  have hw3 : ¬ (({ s with guidePos := stepOnce s.guidePos s.guideRate } :
      CableWinder).runMode &&& MODE_WINDER ≠ 0) := by
    show ¬ (s.runMode &&& MODE_WINDER ≠ 0)
    rw [hmode]; decide
  have h5 : runSteppers s = { s with guidePos := stepOnce s.guidePos s.guideRate } := by
    simp only [runSteppers, if_pos hg, if_neg hw3]
  unfold onLoop
  rw [h1, h2, h3, h4, h5]
  exact ⟨rfl, rfl, rfl, rfl, by decide, by decide⟩

/-- C7 counterexample: from the `MODE_REVERSING` state `cex7` one tick moves
the winder (the hysteresis check re-enters `MODE_WINDING` before the drive
block, so the winder advances on the same tick). -/
theorem claim7_cex :
    cex7.runMode = MODE_REVERSING ∧ (onLoop cex7).winderPos ≠ cex7.winderPos := by
  refine ⟨rfl, ?_⟩
  norm_num +decide [onLoop, winderCheck, reverseCheck, hysteresisCheck, guideMoveCheck,
    runSteppers, cex7, stepOnce, MODE_WINDING, MODE_WINDER, MODE_GUIDE, MODE_STOPPED,
    MODE_REVERSING]

lemma abs_signFactor_mul (c : Prop) [Decidable c] (a r : ℚ) :
    |(if c then (1 : ℚ) else -1) * |a| * r| = |a| * |r| := by
  split <;> simp [abs_mul, abs_abs]

/-- C4 (amended): after `setWindPitch P` the guide speed magnitude equals the
winder speed magnitude times `|P| / LeadScrewPitch`, and after
`setWinderSpeed v` it equals the new winder speed magnitude times the stored
ratio magnitude; the recomputation cannot flip the guide direction when the
ratio is positive (`0 < P`, resp. `0 < guideToWinderStepRatio`). With a
negative wind pitch the magnitude equation with the signed ratio fails and
the sign is flipped, not preserved (see the counterexample). -/
theorem claim4_thm (s : CableWinder) (P v : ℚ) (_hP : P ≠ 0) :
    |(setWindPitch P s).guideSpeed| =
      |(setWindPitch P s).winderSpeed| * (|P| / LeadScrewPitch) ∧
    (0 < P → 0 < s.guideSpeed → 0 ≤ (setWindPitch P s).guideSpeed) ∧
    (0 < P → s.guideSpeed ≤ 0 → (setWindPitch P s).guideSpeed ≤ 0) ∧
    |(setWinderSpeed v s).guideSpeed| =
      |(setWinderSpeed v s).winderSpeed| * |s.guideToWinderStepRatio| ∧
    (0 < s.guideToWinderStepRatio → 0 < s.guideSpeed →
      0 ≤ (setWinderSpeed v s).guideSpeed) ∧
    (0 < s.guideToWinderStepRatio → s.guideSpeed ≤ 0 →
      (setWinderSpeed v s).guideSpeed ≤ 0) := by
  refine ⟨?_, ?_, ?_, ?_, ?_, ?_⟩
  · show |(if 0 < s.guideSpeed then (1 : ℚ) else -1) * |s.winderSpeed| *
        (P / LeadScrewPitch)| = |s.winderSpeed| * (|P| / LeadScrewPitch)
    rw [abs_signFactor_mul, abs_div]
    norm_num [LeadScrewPitch]
  · intro hP0 hgs
    show 0 ≤ (if 0 < s.guideSpeed then (1 : ℚ) else -1) * |s.winderSpeed| *
        (P / LeadScrewPitch)
    rw [if_pos hgs, one_mul]
    exact mul_nonneg (abs_nonneg _)
      (le_of_lt (div_pos hP0 (by norm_num [LeadScrewPitch])))
  · intro hP0 hgs
    show (if 0 < s.guideSpeed then (1 : ℚ) else -1) * |s.winderSpeed| *
        (P / LeadScrewPitch) ≤ 0
    rw [if_neg (not_lt.mpr hgs)]
    have h1 : 0 ≤ |s.winderSpeed| * (P / LeadScrewPitch) :=
      mul_nonneg (abs_nonneg _) (le_of_lt (div_pos hP0 (by norm_num [LeadScrewPitch])))
    linarith
  · show |(if 0 < s.guideSpeed then (1 : ℚ) else -1) * |v * StepsPerRev| *
        s.guideToWinderStepRatio| = |v * StepsPerRev| * |s.guideToWinderStepRatio|
    exact abs_signFactor_mul _ _ _
  · intro hr hgs
    show 0 ≤ (if 0 < s.guideSpeed then (1 : ℚ) else -1) * |v * StepsPerRev| *
        s.guideToWinderStepRatio
    rw [if_pos hgs, one_mul]
    exact mul_nonneg (abs_nonneg _) (le_of_lt hr)
  · intro hr hgs
    show (if 0 < s.guideSpeed then (1 : ℚ) else -1) * |v * StepsPerRev| *
        s.guideToWinderStepRatio ≤ 0
    rw [if_neg (not_lt.mpr hgs)]
    have h1 : 0 ≤ |v * StepsPerRev| * s.guideToWinderStepRatio :=
      mul_nonneg (abs_nonneg _) (le_of_lt hr)
    linarith

/-- C4 counterexample: on the start-up state with ratio `1/5` and guide speed
`+12`, `setWindPitch (-0.4)` yields guide speed `-12`: the magnitude (12) is
not the winder magnitude times the signed ratio (which would be `-12`), and
the sign of the guide speed flips rather than being preserved. -/
theorem claim4_cex :
    ((-2 : ℚ) / 5 ≠ 0) ∧
    0 < (init (1 / 5) 1 0).guideSpeed ∧
    (setWindPitch (-2 / 5) (init (1 / 5) 1 0)).guideSpeed < 0 ∧
    |(setWindPitch (-2 / 5) (init (1 / 5) 1 0)).guideSpeed| ≠
      |(setWindPitch (-2 / 5) (init (1 / 5) 1 0)).winderSpeed| *
        ((-2 / 5) / LeadScrewPitch) := by
  refine ⟨by norm_num, ?_, ?_, ?_⟩ <;>
    norm_num [setWindPitch, calcSpeed, init, InitialSpeed, StepsPerRev, LeadScrewPitch]

/-- C4 witness: the amended magnitude relation after `setWindPitch (0.4)` on
the start-up state. -/
theorem claim4_witness :
    ((2 : ℚ) / 5 ≠ 0) ∧
    |(setWindPitch (2 / 5) (init (1 / 5) 1 0)).guideSpeed| =
      |(setWindPitch (2 / 5) (init (1 / 5) 1 0)).winderSpeed| *
        (|(2 : ℚ) / 5| / LeadScrewPitch) :=
  ⟨by norm_num, (claim4_thm (init (1 / 5) 1 0) (2 / 5) (1 / 2) (by norm_num)).1⟩

/-- C8 (amended): `windCable d` with `d ≠ 0` re-zeroes the winder position to
the float-to-long truncation of `-d * StepsPerRev` (exactly `-d * StepsPerRev`
when that product is integral, as in `windCable 5`) and sets the winder speed
sign from the sign of `d`; with `d = 0` the winder position and speed are left
unchanged; in all cases it enables both drivers, recomputes the guide speed
magnitude from the (new) winder speed and the stored ratio, and sets the run
mode to `MODE_WINDING`; `windCable 5` re-zeroes the winder to `-1000` steps
with a nonnegative rate of the previous magnitude. -/
theorem claim8_thm (s : CableWinder) (d : ℚ) :
    (d ≠ 0 →
      (windCable d s).winderPos = ratTrunc (-d * StepsPerRev) ∧
      (0 < d → (windCable d s).winderSpeed = |s.winderSpeed|) ∧
      (d < 0 → (windCable d s).winderSpeed = -|s.winderSpeed|)) ∧
    (d = 0 →
      (windCable d s).winderPos = s.winderPos ∧
      (windCable d s).winderSpeed = s.winderSpeed) ∧
    (windCable d s).guideEnabled = true ∧
    (windCable d s).winderEnabled = true ∧
    |(windCable d s).guideSpeed| =
      |(windCable d s).winderSpeed| * |s.guideToWinderStepRatio| ∧
    (windCable d s).runMode = MODE_WINDING ∧
    (windCable 5 s).winderPos = -1000 ∧
    (windCable 5 s).winderSpeed = |s.winderSpeed| := by
  refine ⟨?_, ?_, rfl, rfl, ?_, rfl, ?_, ?_⟩
  · intro hd
    refine ⟨?_, ?_, ?_⟩
    · simp only [windCable, calcSpeed, if_pos hd]
    · intro hdp
      simp only [windCable, calcSpeed, if_pos hd, if_neg (not_lt.mpr (le_of_lt hdp))]
    · intro hdn
      simp only [windCable, calcSpeed, if_pos hd, if_pos hdn]
  · intro hd
    have hnd : ¬ (d ≠ 0) := fun h => h hd
    exact ⟨by simp only [windCable, calcSpeed, if_neg hnd],
      by simp only [windCable, calcSpeed, if_neg hnd]⟩
  · by_cases hd : d = 0
    · have hnd : ¬ (d ≠ 0) := fun h => h hd
      simp only [windCable, calcSpeed, if_neg hnd]
      exact abs_signFactor_mul _ _ _
    · by_cases hdn : d < 0
      · simp only [windCable, calcSpeed, if_pos hd, if_pos hdn]
        exact abs_signFactor_mul _ _ _
      · simp only [windCable, calcSpeed, if_pos hd, if_neg hdn]
        exact abs_signFactor_mul _ _ _
  · have h : (windCable 5 s).winderPos = ratTrunc (-(5 : ℚ) * StepsPerRev) := by
      simp only [windCable, calcSpeed, if_pos (show (5 : ℚ) ≠ 0 by norm_num)]
    rw [h]
    norm_num [ratTrunc, StepsPerRev]
  · simp only [windCable, calcSpeed, if_pos (show (5 : ℚ) ≠ 0 by norm_num),
      if_neg (show ¬ (5 : ℚ) < 0 by norm_num)]

/-- C8 counterexample: `windCable (1/400)` truncates the target
`-(1/400) * 200 = -0.5` steps to `0`, so the winder position is not
`-d * StepsPerRev` for every nonzero `d`. -/
theorem claim8_cex :
    ((1 : ℚ) / 400 ≠ 0) ∧
    ((windCable (1 / 400) (init 0 0 0)).winderPos : ℚ) ≠ -(1 / 400) * StepsPerRev := by
  refine ⟨by norm_num, ?_⟩
  norm_num [windCable, calcSpeed, init, ratTrunc, StepsPerRev, LeadScrewPitch,
    InitialSpeed, SpoolStepWidth, SpoolWidth, GuideStepHysteresis,
    GuidePositionHysteresis, MODE_STOPPED, MODE_WINDING]

/-- C8 witness: the amended wind command behavior at `d = 3/2` and the
`windCable 5` scenario, on the start-up state. -/
theorem claim8_witness :
    ((3 : ℚ) / 2 ≠ 0) ∧
    (windCable (3 / 2) (init 0 0 0)).winderPos = ratTrunc (-(3 / 2) * StepsPerRev) ∧
    (windCable (3 / 2) (init 0 0 0)).runMode = MODE_WINDING ∧
    (windCable 5 (init 0 0 0)).winderPos = -1000 := by
  have h := claim8_thm (init 0 0 0) (3 / 2)
  exact ⟨by norm_num, (h.1 (by norm_num)).1, h.2.2.2.2.2.1, h.2.2.2.2.2.2.1⟩

lemma ratTrunc_intCast (k : Int) : ratTrunc (k : ℚ) = k := by
  unfold ratTrunc
  split
  · exact Int.floor_intCast k
  · rw [← Int.cast_neg, Int.floor_intCast]
    exact neg_neg k

/-- C9 (amended): `setWindPitch P; getWindPitch` returns exactly `P` for any
nonzero `P`; `setGuidePosition mm; getGuidePosition` returns the value
quantized to a whole guide step,
`ratTrunc (mm * StepsPerRev / LeadScrewPitch) * LeadScrewPitch / StepsPerRev`,
which equals `mm` exactly whenever `mm * StepsPerRev / LeadScrewPitch` is an
integer; for fractional-step inputs the round trip is not exact (see the
counterexample). -/
theorem claim9_thm (s : CableWinder) (P m : ℚ) (_hP : P ≠ 0) :
    getWindPitch (setWindPitch P s) = P ∧
    getGuidePosition (setGuidePosition m s) =
      ((ratTrunc (m * StepsPerRev / LeadScrewPitch) : Int) : ℚ) *
        LeadScrewPitch / StepsPerRev ∧
    (∀ k : Int, m * StepsPerRev / LeadScrewPitch = (k : ℚ) →
      getGuidePosition (setGuidePosition m s) = m) := by
  refine ⟨?_, rfl, ?_⟩
  · show P / LeadScrewPitch * LeadScrewPitch = P
    rw [div_mul_cancel₀ P (show LeadScrewPitch ≠ 0 by norm_num [LeadScrewPitch])]
  · intro k hk
    show ((ratTrunc (m * StepsPerRev / LeadScrewPitch) : Int) : ℚ) *
        LeadScrewPitch / StepsPerRev = m
    rw [hk, ratTrunc_intCast]
    field_simp [StepsPerRev, LeadScrewPitch] at hk ⊢
    linarith

/-- C9 counterexample: `setGuidePosition (0.005)` stores
`trunc (0.005 * 200 / 2) = trunc (0.5) = 0` steps, so `getGuidePosition`
returns `0`, not `0.005`. -/
theorem claim9_cex :
    getGuidePosition (setGuidePosition (1 / 200) (init 0 0 0)) ≠ (1 / 200 : ℚ) := by
  norm_num [getGuidePosition, setGuidePosition, init, calcSpeed, ratTrunc,
    StepsPerRev, LeadScrewPitch]

/-- C9 witness: exact round trips at `P = 0.3` and at the whole-step guide
position `1.5` mm (150 steps). -/
theorem claim9_witness :
    getWindPitch (setWindPitch (3 / 10) (init 0 0 0)) = 3 / 10 ∧
    getGuidePosition (setGuidePosition (3 / 2) (init 0 0 0)) = 3 / 2 := by
  have h := claim9_thm (init 0 0 0) (3 / 10) (3 / 2) (by norm_num)
  exact ⟨h.1, h.2.2 150 (by norm_num [StepsPerRev, LeadScrewPitch])⟩

/-- C7 witness: the amended frame property at the concrete state `w7`. -/
theorem claim7_witness :
    w7.runMode = MODE_REVERSING ∧
    ¬ ((w7.guidePos ≤ w7.guideUpperLimit - w7.guideHysteresis ∧ w7.guideSpeed < 0) ∨
       (w7.guideLowerLimit + w7.guideHysteresis ≤ w7.guidePos ∧ 0 < w7.guideSpeed)) ∧
    ((onLoop w7).winderPos = w7.winderPos ∧
     (onLoop w7).winderSpeed = w7.winderSpeed ∧
     (onLoop w7).winderRate = w7.winderRate ∧
     (onLoop w7).guidePos = stepOnce w7.guidePos w7.guideRate ∧
     MODE_REVERSING &&& MODE_GUIDE ≠ 0 ∧ MODE_REVERSING &&& MODE_WINDER = 0) :=
  ⟨rfl, by norm_num [w7], claim7_thm w7 rfl (by norm_num [w7])⟩

end CableWinderModel
